import Mathlib

/-!
Verification of the U by Moen integration's device-state synchronization:
the push-event patch merger (`__init__.py`), the polling coordinator
(`coordinator.py`), the pusher channel client (`api.py`), the optimistic
write overlay and the outlet composite writes (`switch.py`).
Python dict payloads are modelled as association lists over a JSON-like
value type; every definition mirrors one function of the source.
-/

/-- A Python/JSON value as it appears in push payloads and device records. -/
inductive PyVal where
  | str : String → PyVal
  | int : Int → PyVal
  | bool : Bool → PyVal
  | null : PyVal
  | list : List PyVal → PyVal
  | dict : List (String × PyVal) → PyVal

/-- Python `v == "s"` for a string literal: only a `str` value can be equal. -/
def PyVal.eqStr : PyVal → String → Bool
  | .str a, b => a = b
  | _, _ => false

/-- Python `v == n` for an int literal: only an `int` value can be equal. -/
def PyVal.eqInt : PyVal → Int → Bool
  | .int a, b => a = b
  | _, _ => false

/-- Python truthiness (`if v:`) of a value. -/
def PyVal.isTruthy : PyVal → Bool
  | .str s => ¬ s.isEmpty
  | .int n => n ≠ 0
  | .bool b => b
  | .null => false
  | .list l => ¬ l.isEmpty
  | .dict d => ¬ d.isEmpty

/-- `d.get(k)` on a Python dict: the value at the first matching key. -/
def lookupKey (k : String) : List (String × PyVal) → Option PyVal
  | [] => Option.none
  | (k0, v) :: rest => if k0 = k then some v else lookupKey k rest

/-- Python `a.update(b)` on dicts: keys of `a` keep their place with the
value from `b` when `b` has that key; keys only in `b` are appended. -/
def dictUpdate (a b : List (String × PyVal)) : List (String × PyVal) :=
  (a.map fun kv =>
    match lookupKey kv.1 b with
    | some v => (kv.1, v)
    | Option.none => kv) ++
  b.filter fun kv => (lookupKey kv.1 a).isNone

theorem lookupKey_append (k : String) (a b : List (String × PyVal)) :
    lookupKey k (a ++ b) = ((lookupKey k a).orElse fun _ => lookupKey k b) := by
  induction a with
  | nil => simp [lookupKey, Option.orElse]
  | cons kv rest ih =>
    simp only [List.cons_append, lookupKey]
    by_cases h : kv.1 = k
    · simp [h, Option.orElse]
    · simp [h, ih]

theorem lookupKey_map_patch (k : String) (a b : List (String × PyVal)) :
    lookupKey k (a.map fun kv =>
      match lookupKey kv.1 b with
      | some v => (kv.1, v)
      | Option.none => kv) =
    match lookupKey k a with
    | some _ =>
      match lookupKey k b with
      | some w => some w
      | Option.none => lookupKey k a
    | Option.none => Option.none := by
  induction a with
  | nil => simp [lookupKey]
  | cons kv rest ih =>
    by_cases h : kv.1 = k
    · subst h
      cases hb : lookupKey kv.1 b with
      | none => simp [lookupKey, hb]
      | some w => simp [lookupKey, hb]
    · cases hb : lookupKey kv.1 b with
      | none =>
        simp only [List.map_cons, lookupKey, hb]
        rw [if_neg h, if_neg h, ih]
      | some w =>
        simp only [List.map_cons, lookupKey, hb]
        rw [if_neg h, if_neg h, ih]

theorem lookupKey_filter_notin (k : String) (a b : List (String × PyVal))
    (ha : lookupKey k a = Option.none) :
    lookupKey k (b.filter fun kv => (lookupKey kv.1 a).isNone) = lookupKey k b := by
  induction b with
  | nil => simp
  | cons kv rest ih =>
    by_cases h : kv.1 = k
    · subst h
      simp only [List.filter_cons, ha, Option.isNone_none, lookupKey, if_pos rfl]
      simp [lookupKey]
    · cases hmem : (lookupKey kv.1 a).isNone with
      | true =>
        simp only [List.filter_cons, hmem, if_pos rfl, lookupKey]
        rw [if_neg h, if_neg h, ih]
      | false =>
        rw [List.filter_cons, hmem]
        simp only [Bool.false_eq_true, if_neg, ite_false]
        rw [ih, lookupKey, if_neg h]

/-- Shallow-merge semantics of `dictUpdate`: a key takes its value from the
patch when present there, otherwise from the original record. -/
theorem lookupKey_dictUpdate (k : String) (a b : List (String × PyVal)) :
    lookupKey k (dictUpdate a b) =
      match lookupKey k b with
      | some w => some w
      | Option.none => lookupKey k a := by
  unfold dictUpdate
  rw [lookupKey_append, lookupKey_map_patch]
  cases ha : lookupKey k a with
  | some v =>
    cases hb : lookupKey k b with
    | some w => simp [Option.orElse]
    | none => simp [ha, Option.orElse]
  | none =>
    simp only [Option.orElse, Option.none_orElse]
    rw [lookupKey_filter_notin k a b ha]
    cases lookupKey k b <;> rfl

/-! ## Patch merger: `device_update_callback` in `__init__.py` -/

/-- The fixed pusher-field → device-field mapping of `device_update_callback`
(lines 81-96 of `__init__.py`), in source order. -/
def pusherFieldMap : List (String × String) :=
  [("current_mode", "mode"),
   ("target_temperature", "target_temperature"),
   ("current_temperature", "current_temperature"),
   ("outlets", "outlets"),
   ("active_preset", "active_preset"),
   ("timer_enabled", "timer_enabled"),
   ("time_remaining", "timer_remaining"),
   ("presets", "presets")]

/-- The `update_data` dict built by the successive `if "f" in event_data`
blocks of `device_update_callback`. -/
def buildUpdateData (eventData : List (String × PyVal)) : List (String × PyVal) :=
  pusherFieldMap.filterMap fun p => (lookupKey p.1 eventData).map fun v => (p.2, v)

/-- Effect of one invocation of the per-device pusher callback: merge a patch,
request a full refresh, or log-and-ignore. -/
inductive PushEffect where
  | update (fields : List (String × PyVal))
  | refresh
  | ignore

/-- `device_update_callback(event, data)` from `__init__.py` lines 66-110,
reduced to the effect it performs. -/
def device_update_callback (event : String) (data : PyVal) : PushEffect :=
  match data with
  | .dict d =>
    if event = "client-state-reported" then
      let eventType := (lookupKey "type" d).getD (PyVal.str "")
      let eventData := (lookupKey "data" d).getD (PyVal.dict [])
      if eventType.eqStr "state_change" || eventType.eqStr "shower_report" then
        match eventData with
        | .dict ed =>
          let ud := buildUpdateData ed
          if ud.isEmpty then PushEffect.refresh else PushEffect.update ud
        | _ => PushEffect.ignore
      else PushEffect.ignore
    else PushEffect.refresh
  | _ => PushEffect.refresh

/-! ## Registry / coordinator: `coordinator.py` -/

/-- One device record: the device-detail dict. -/
abbrev DeviceRecord := List (String × PyVal)

/-- The coordinator's device map together with a count of
`async_set_updated_data` notifications, so "exactly one notification fired"
is observable. -/
structure Registry where
  devices : List (String × DeviceRecord)
  updateCount : Nat

/-- Lookup of a device record by serial number. -/
def lookupDev (k : String) : List (String × DeviceRecord) → Option DeviceRecord
  | [] => Option.none
  | (k0, v) :: rest => if k0 = k then some v else lookupDev k rest

/-- In-place replacement of one device's record (`self.devices[serial]` is
mutated, all other entries untouched). -/
def setDev (k : String) (v : DeviceRecord) :
    List (String × DeviceRecord) → List (String × DeviceRecord)
  | [] => []
  | (k0, w) :: rest => if k0 = k then (k0, v) :: rest else (k0, w) :: setDev k v rest

/-- `MoenDataUpdateCoordinator.update_device_from_pusher`: merge the patch
into an existing record and notify once; unknown serials are a no-op. -/
def update_device_from_pusher (r : Registry) (serial : String)
    (updateData : List (String × PyVal)) : Registry :=
  match lookupDev serial r.devices with
  | some dev =>
    { devices := setDev serial (dictUpdate dev updateData) r.devices,
      updateCount := r.updateCount + 1 }
  | Option.none => r

/-- Dispatching one push frame to a device's registered callback: the
callback computes its effect, and the registry (plus a refresh-requested
flag) records it. -/
def dispatchPush (r : Registry) (serial : String) (event : String)
    (data : PyVal) : Registry × Bool :=
  match device_update_callback event data with
  | PushEffect.update ud => (update_device_from_pusher r serial ud, false)
  | PushEffect.refresh => (r, true)
  | PushEffect.ignore => (r, false)

theorem lookupDev_setDev_self (k : String) (v : DeviceRecord)
    (m : List (String × DeviceRecord)) (w : DeviceRecord)
    (h : lookupDev k m = some w) : lookupDev k (setDev k v m) = some v := by
  induction m with
  | nil => simp [lookupDev] at h
  | cons kv rest ih =>
    obtain ⟨k0, w0⟩ := kv
    by_cases hk : k0 = k
    · simp [setDev, lookupDev, hk]
    · simp only [lookupDev, if_neg hk] at h
      simp [setDev, lookupDev, hk, ih h]

/-- The C1 scenario patch, as `device_update_callback` builds it from
`{"type":"state_change","data":{"current_mode":"ready","current_temperature":101}}`. -/
def c1Patch : List (String × PyVal) :=
  [("mode", PyVal.str "ready"), ("current_temperature", PyVal.int 101)]

/-- Claim C1: dispatching the `client-state-reported` state-change frame to a
registry holding `S1` with mode `off` yields a record with mode `ready` and
`current_temperature` 101, all other fields unchanged, exactly one update
notification, and no refresh request. -/
theorem push_state_change_end_to_end (r : Registry) (dev : DeviceRecord)
    (hdev : lookupDev "S1" r.devices = some dev)
    (hmode : lookupKey "mode" dev = some (PyVal.str "off")) :
    dispatchPush r "S1" "client-state-reported"
        (PyVal.dict [("type", PyVal.str "state_change"),
          ("data", PyVal.dict [("current_mode", PyVal.str "ready"),
                               ("current_temperature", PyVal.int 101)])]) =
      ({ devices := setDev "S1" (dictUpdate dev c1Patch) r.devices,
         updateCount := r.updateCount + 1 }, false) ∧
    lookupDev "S1" (setDev "S1" (dictUpdate dev c1Patch) r.devices) =
      some (dictUpdate dev c1Patch) ∧
    lookupKey "mode" (dictUpdate dev c1Patch) = some (PyVal.str "ready") ∧
    lookupKey "current_temperature" (dictUpdate dev c1Patch) = some (PyVal.int 101) ∧
    (∀ k, k ≠ "mode" → k ≠ "current_temperature" →
      lookupKey k (dictUpdate dev c1Patch) = lookupKey k dev) := by
  refine ⟨?_, ?_, ?_, ?_, ?_⟩
  · show (update_device_from_pusher r "S1" c1Patch, false) = _
    rw [update_device_from_pusher, hdev]
  · exact lookupDev_setDev_self _ _ _ _ hdev
  · rw [lookupKey_dictUpdate]; rfl
  · rw [lookupKey_dictUpdate]; rfl
  · intro k hk1 hk2
    rw [lookupKey_dictUpdate]
    have e1 : ("mode" = k) = False := by
      simp only [eq_iff_iff, iff_false]; exact fun h => hk1 h.symm
    have e2 : ("current_temperature" = k) = False := by
      simp only [eq_iff_iff, iff_false]; exact fun h => hk2 h.symm
    simp only [c1Patch, lookupKey, e1, if_false, e2]

/-- Closed instance of the C1 end-to-end scenario on a concrete registry. -/
theorem push_state_change_end_to_end_inst :
    let dev : DeviceRecord :=
      [("serial_number", PyVal.str "S1"), ("mode", PyVal.str "off"),
       ("target_temperature", PyVal.int 99), ("channel", PyVal.str "ch1")]
    let r : Registry := ⟨[("S1", dev)], 0⟩
    dispatchPush r "S1" "client-state-reported"
        (PyVal.dict [("type", PyVal.str "state_change"),
          ("data", PyVal.dict [("current_mode", PyVal.str "ready"),
                               ("current_temperature", PyVal.int 101)])]) =
      ({ devices := setDev "S1" (dictUpdate dev c1Patch) r.devices,
         updateCount := 1 }, false) ∧
    lookupKey "target_temperature" (dictUpdate dev c1Patch) = some (PyVal.int 99) := by
  intro dev r
  have h := push_state_change_end_to_end r dev rfl rfl
  exact ⟨h.1, h.2.2.2.2 "target_temperature" (by decide) (by decide)⟩

/-- Claim C6: the pusher merge is field-local — with a mode-only patch every
key other than `mode` is unchanged, and in general every key absent from the
patch keeps its value from the existing record. -/
theorem merge_field_local (dev : DeviceRecord) (v : PyVal) :
    (∀ k, k ≠ "mode" → lookupKey k (dictUpdate dev [("mode", v)]) = lookupKey k dev) ∧
    lookupKey "mode" (dictUpdate dev [("mode", v)]) = some v ∧
    (∀ p k, lookupKey k p = Option.none →
      lookupKey k (dictUpdate dev p) = lookupKey k dev) := by
  refine ⟨?_, ?_, ?_⟩
  · intro k hk
    rw [lookupKey_dictUpdate]
    have e1 : ("mode" = k) = False := by
      simp only [eq_iff_iff, iff_false]; exact fun h => hk h.symm
    simp [lookupKey, e1]
  · rw [lookupKey_dictUpdate]; rfl
  · intro p k hp
    rw [lookupKey_dictUpdate, hp]

/-- Closed instance of field-locality of the merge on a concrete record. -/
theorem merge_field_local_inst :
    lookupKey "channel" (dictUpdate
        [("mode", PyVal.str "off"), ("channel", PyVal.str "ch1")]
        [("mode", PyVal.str "ready")]) = some (PyVal.str "ch1") := by
  exact (merge_field_local [("mode", PyVal.str "off"), ("channel", PyVal.str "ch1")]
    (PyVal.str "ready")).1 "channel" (by decide)

/-- Counterexample to claim C4: a flat payload carrying `current_mode` at top
level is ignored by the merger, while the same field under the nested
`{type:"state_change", data:…}` envelope is merged — the two shapes are not
handled identically. -/
theorem flat_payload_not_merged :
    device_update_callback "client-state-reported"
        (PyVal.dict [("current_mode", PyVal.str "ready")]) = PushEffect.ignore ∧
    device_update_callback "client-state-reported"
        (PyVal.dict [("type", PyVal.str "state_change"),
          ("data", PyVal.dict [("current_mode", PyVal.str "ready")])]) =
      PushEffect.update [("mode", PyVal.str "ready")] ∧
    PushEffect.ignore ≠ PushEffect.update [("mode", PyVal.str "ready")] :=
  ⟨rfl, rfl, fun h => PushEffect.noConfusion h⟩

/-- Claim C4 amended: the merger accepts the same state fields only under the
nested `{type, data}` envelope, treating the `state_change` and
`shower_report` type values identically; a flat payload (one without a
`type` key) is ignored, not merged. -/
theorem nested_envelopes_identical (ed : PyVal) (d : List (String × PyVal))
    (hflat : lookupKey "type" d = Option.none) :
    device_update_callback "client-state-reported"
        (PyVal.dict [("type", PyVal.str "state_change"), ("data", ed)]) =
      device_update_callback "client-state-reported"
        (PyVal.dict [("type", PyVal.str "shower_report"), ("data", ed)]) ∧
    device_update_callback "client-state-reported" (PyVal.dict d) =
      PushEffect.ignore := by
  constructor
  · rfl
  · rw [device_update_callback, if_pos rfl, hflat]
    rfl

/-- Closed instance of the amended C4 on concrete payloads. -/
theorem nested_envelopes_identical_inst :
    device_update_callback "client-state-reported"
        (PyVal.dict [("type", PyVal.str "state_change"),
          ("data", PyVal.dict [("current_mode", PyVal.str "ready")])]) =
      device_update_callback "client-state-reported"
        (PyVal.dict [("type", PyVal.str "shower_report"),
          ("data", PyVal.dict [("current_mode", PyVal.str "ready")])]) ∧
    device_update_callback "client-state-reported"
        (PyVal.dict [("current_mode", PyVal.str "ready")]) = PushEffect.ignore :=
  nested_envelopes_identical
    (PyVal.dict [("current_mode", PyVal.str "ready")])
    [("current_mode", PyVal.str "ready")] rfl

/-- Counterexample to claim C5: the payload
`{"type":"settings","data":{}}` contains no recognized state field, yet
dispatching it is a silent ignore — no refresh is requested. -/
theorem unrecognized_type_no_refresh :
    device_update_callback "client-state-reported"
        (PyVal.dict [("type", PyVal.str "settings"), ("data", PyVal.dict [])]) =
      PushEffect.ignore ∧
    buildUpdateData [] = [] ∧
    PushEffect.ignore ≠ PushEffect.refresh :=
  ⟨rfl, rfl, fun h => PushEffect.noConfusion h⟩

/-- Claim C5 amended: dispatch is total (never raises); a full refresh is
requested for unknown event names, for non-dict payloads, and for
`state_change`/`shower_report` envelopes whose data holds no recognized
state field — but an envelope whose `type` is neither of those two values is
ignored without a refresh. -/
theorem unknown_shape_refresh_behavior :
    (∀ e d, e ≠ "client-state-reported" →
      device_update_callback e d = PushEffect.refresh) ∧
    (∀ e d, (∀ l, d ≠ PyVal.dict l) →
      device_update_callback e d = PushEffect.refresh) ∧
    (∀ d ed,
      ((((lookupKey "type" d).getD (PyVal.str "")).eqStr "state_change" ||
        ((lookupKey "type" d).getD (PyVal.str "")).eqStr "shower_report") = true) →
      (lookupKey "data" d).getD (PyVal.dict []) = PyVal.dict ed →
      buildUpdateData ed = [] →
      device_update_callback "client-state-reported" (PyVal.dict d) =
        PushEffect.refresh) ∧
    (∀ d,
      ((((lookupKey "type" d).getD (PyVal.str "")).eqStr "state_change" ||
        ((lookupKey "type" d).getD (PyVal.str "")).eqStr "shower_report") = false) →
      device_update_callback "client-state-reported" (PyVal.dict d) =
        PushEffect.ignore) := by
  refine ⟨?_, ?_, ?_, ?_⟩
  · intro e d he
    cases d with
    | dict l => rw [device_update_callback, if_neg he]
    | str s => rfl
    | int n => rfl
    | bool b => rfl
    | null => rfl
    | list l => rfl
  · intro e d hd
    cases d with
    | dict l => exact absurd rfl (hd l)
    | str s => rfl
    | int n => rfl
    | bool b => rfl
    | null => rfl
    | list l => rfl
  · intro d ed htype hdata hud
    rw [device_update_callback, if_pos rfl]
    simp only [htype, if_pos rfl, hdata, hud]
    rfl
  · intro d htype
    rw [device_update_callback, if_pos rfl]
    simp only [htype, Bool.false_eq_true, if_false]

/-- Closed instance of the C5 refresh/ignore behavior on concrete events. -/
theorem unknown_shape_refresh_behavior_inst :
    device_update_callback "some-other-event" PyVal.null = PushEffect.refresh ∧
    device_update_callback "client-state-reported" (PyVal.str "junk") =
      PushEffect.refresh ∧
    device_update_callback "client-state-reported"
        (PyVal.dict [("type", PyVal.str "state_change"),
          ("data", PyVal.dict [("unrelated", PyVal.int 1)])]) =
      PushEffect.refresh ∧
    device_update_callback "client-state-reported"
        (PyVal.dict [("type", PyVal.str "settings"), ("data", PyVal.dict [])]) =
      PushEffect.ignore := by
  refine ⟨?_, ?_, ?_, ?_⟩
  · exact unknown_shape_refresh_behavior.1 "some-other-event" PyVal.null (by decide)
  · exact unknown_shape_refresh_behavior.2.1 "client-state-reported"
      (PyVal.str "junk") (fun l h => PyVal.noConfusion h)
  · exact unknown_shape_refresh_behavior.2.2.1
      [("type", PyVal.str "state_change"), ("data", PyVal.dict [("unrelated", PyVal.int 1)])]
      [("unrelated", PyVal.int 1)] rfl rfl rfl
  · exact unknown_shape_refresh_behavior.2.2.2
      [("type", PyVal.str "settings"), ("data", PyVal.dict [])] rfl

/-- Python dict assignment `m[k] = v`: replaces the value of an existing key
in place, appends a new entry otherwise. -/
def insertDev (k : String) (v : DeviceRecord) :
    List (String × DeviceRecord) → List (String × DeviceRecord)
  | [] => [(k, v)]
  | (k0, w) :: rest =>
    if k0 = k then (k0, v) :: rest else (k0, w) :: insertDev k v rest

theorem lookupDev_insertDev_self (k : String) (v : DeviceRecord)
    (m : List (String × DeviceRecord)) : lookupDev k (insertDev k v m) = some v := by
  induction m with
  | nil => simp [insertDev, lookupDev]
  | cons kv rest ih =>
    obtain ⟨k0, w⟩ := kv
    by_cases hk : k0 = k
    · simp [insertDev, lookupDev, hk]
    · simp [insertDev, lookupDev, hk, ih]

theorem lookupDev_insertDev_other (k k2 : String) (v : DeviceRecord)
    (m : List (String × DeviceRecord)) (h : k2 ≠ k) :
    lookupDev k (insertDev k2 v m) = lookupDev k m := by
  induction m with
  | nil => simp [insertDev, lookupDev, h]
  | cons kv rest ih =>
    obtain ⟨k0, w⟩ := kv
    by_cases hk : k0 = k2
    · subst hk
      simp [insertDev, lookupDev, h, if_neg (fun hc : k0 = k => h hc)]
    · simp only [insertDev, if_neg hk, lookupDev]
      by_cases hk2 : k0 = k
      · simp [hk2]
      · simp [hk2, ih]

/-- One iteration of the per-device loop of
`MoenDataUpdateCoordinator._async_update_data`: on a successful detail fetch
store the fresh record; on `MoenApiError` keep the previous record when one
exists, else skip the device. -/
def mergeStep (prev : List (String × DeviceRecord))
    (details : String → Except Unit DeviceRecord)
    (acc : List (String × DeviceRecord)) (sn : String) :
    List (String × DeviceRecord) :=
  match details sn with
  | Except.ok d => insertDev sn d acc
  | Except.error _ =>
    match lookupDev sn prev with
    | some d => insertDev sn d acc
    | Option.none => acc

/-- The record `_async_update_data` ends up holding for a listed device. -/
def refreshOutcome (prev : List (String × DeviceRecord))
    (details : String → Except Unit DeviceRecord) (sn : String) :
    Option DeviceRecord :=
  match details sn with
  | Except.ok d => some d
  | Except.error _ => lookupDev sn prev

/-- `MoenDataUpdateCoordinator._async_update_data`: a failed device-list
fetch raises `UpdateFailed`; otherwise the per-device loop builds the new
map from an empty dict. -/
def async_update_data (prev : List (String × DeviceRecord))
    (devicesList : Except Unit (List String))
    (details : String → Except Unit DeviceRecord) :
    Except Unit (List (String × DeviceRecord)) :=
  match devicesList with
  | Except.error e => Except.error e
  | Except.ok serials => Except.ok (serials.foldl (mergeStep prev details) [])

theorem lookupDev_mergeStep_self (prev : List (String × DeviceRecord))
    (details : String → Except Unit DeviceRecord)
    (acc : List (String × DeviceRecord)) (sn : String) :
    lookupDev sn (mergeStep prev details acc sn) =
      if (refreshOutcome prev details sn).isSome
      then refreshOutcome prev details sn
      else lookupDev sn acc := by
  unfold mergeStep refreshOutcome
  cases details sn with
  | ok d => simp [lookupDev_insertDev_self]
  | error e =>
    cases lookupDev sn prev with
    | some d => simp [lookupDev_insertDev_self]
    | none => simp

theorem lookupDev_mergeStep_other (prev : List (String × DeviceRecord))
    (details : String → Except Unit DeviceRecord)
    (acc : List (String × DeviceRecord)) (sn s : String) (h : sn ≠ s) :
    lookupDev sn (mergeStep prev details acc s) = lookupDev sn acc := by
  unfold mergeStep
  cases details s with
  | ok d => exact lookupDev_insertDev_other _ _ _ _ (fun he => h he.symm)
  | error e =>
    cases lookupDev s prev with
    | some d => exact lookupDev_insertDev_other _ _ _ _ (fun he => h he.symm)
    | none => rfl

theorem lookupDev_mergeFold (prev : List (String × DeviceRecord))
    (details : String → Except Unit DeviceRecord) (serials : List String) :
    ∀ (acc : List (String × DeviceRecord)) (sn : String),
      lookupDev sn (serials.foldl (mergeStep prev details) acc) =
        if sn ∈ serials ∧ (refreshOutcome prev details sn).isSome
        then refreshOutcome prev details sn
        else lookupDev sn acc := by
  induction serials with
  | nil => intro acc sn; simp
  | cons s rest ih =>
    intro acc sn
    rw [List.foldl_cons, ih]
    by_cases hmem : sn ∈ rest ∧ (refreshOutcome prev details sn).isSome
    · rw [if_pos hmem, if_pos ⟨List.mem_cons_of_mem s hmem.1, hmem.2⟩]
    · rw [if_neg hmem]
      by_cases hsn : sn = s
      · subst hsn
        rw [lookupDev_mergeStep_self]
        by_cases houts : (refreshOutcome prev details sn).isSome = true
        · rw [if_pos houts, if_pos ⟨List.mem_cons_self sn rest, houts⟩]
        · rw [if_neg houts, if_neg (fun hc => houts hc.2)]
      · rw [lookupDev_mergeStep_other prev details acc sn s hsn]
        have hcond : ¬ (sn ∈ s :: rest ∧ (refreshOutcome prev details sn).isSome) :=
          fun hc => (List.mem_cons.mp hc.1).elim (fun h1 => hsn h1)
            (fun h1 => hmem ⟨h1, hc.2⟩)
        rw [if_neg hcond]

/-- Claim C2: when the device-list fetch succeeds, each listed device whose
detail fetch succeeds gets the fresh record, each listed device whose detail
fetch fails keeps its previous record (absent devices stay absent), and the
refresh as a whole succeeds; the refresh fails if and only if the
device-list fetch itself fails. -/
theorem refresh_partial_failure (prev : List (String × DeviceRecord))
    (details : String → Except Unit DeviceRecord) :
    (∀ e, async_update_data prev (Except.error e) details = Except.error e) ∧
    (∀ serials, ∃ m, async_update_data prev (Except.ok serials) details =
      Except.ok m ∧
      ∀ sn, sn ∈ serials →
        lookupDev sn m =
          match details sn with
          | Except.ok d => some d
          | Except.error _ => lookupDev sn prev) := by
  constructor
  · intro e; rfl
  · intro serials
    refine ⟨serials.foldl (mergeStep prev details) [], rfl, ?_⟩
    intro sn hsn
    rw [lookupDev_mergeFold prev details serials [] sn]
    cases hd : details sn with
    | ok d => simp [refreshOutcome, hd, hsn]
    | error e =>
      cases hprev : lookupDev sn prev with
      | some d => simp [refreshOutcome, hd, hprev, hsn]
      | none => simp [refreshOutcome, hd, hprev, lookupDev]

/-- Closed instance of the partial-refresh behavior: devices `A` and `B`,
`B`'s detail fetch fails — `A` gets the fresh record, `B` keeps its old one,
the refresh succeeds; and a failed device-list fetch fails the refresh. -/
theorem refresh_partial_failure_inst :
    let devA0 : DeviceRecord := [("mode", PyVal.str "off")]
    let devA1 : DeviceRecord := [("mode", PyVal.str "ready")]
    let devB0 : DeviceRecord := [("mode", PyVal.str "adjusting")]
    let prev := [("A", devA0), ("B", devB0)]
    let details : String → Except Unit DeviceRecord :=
      fun sn => if sn = "A" then Except.ok devA1 else Except.error ()
    (∃ m, async_update_data prev (Except.ok ["A", "B"]) details = Except.ok m ∧
      lookupDev "A" m = some devA1 ∧ lookupDev "B" m = some devB0) ∧
    async_update_data prev (Except.error ()) details = Except.error () := by
  intro devA0 devA1 devB0 prev details
  constructor
  · obtain ⟨m, hm, hlook⟩ := (refresh_partial_failure prev details).2 ["A", "B"]
    exact ⟨m, hm, hlook "A" (by decide), hlook "B" (by decide)⟩
  · exact (refresh_partial_failure prev details).1 ()

/-! ## Pusher channel client: `api.py` -/

/-- An outbound WebSocket frame sent by the client. -/
inductive PusherFrame where
  | subscribe (channel auth : String)
  | clientEvent (event channel : String) (data : PyVal)

/-- The channel-client state of `MoenApi`: `_running`, `_ws`, `_socket_id`,
`_subscribed_channels`, `_update_callbacks` (callbacks identified by tags),
plus the trace of frames handed to `_ws.send_json`. -/
structure PusherClient where
  running : Bool
  ws : Bool
  socketId : Option String
  subscribedChannels : List String
  updateCallbacks : List (String × Nat)
  sentFrames : List PusherFrame

/-- Callback-table lookup. -/
def lookupCb (k : String) : List (String × Nat) → Option Nat
  | [] => Option.none
  | (k0, v) :: rest => if k0 = k then some v else lookupCb k rest

/-- Python dict assignment on `_update_callbacks`. -/
def setCb (k : String) (v : Nat) : List (String × Nat) → List (String × Nat)
  | [] => [(k, v)]
  | (k0, w) :: rest => if k0 = k then (k0, v) :: rest else (k0, w) :: setCb k v rest

theorem lookupCb_setCb_self (k : String) (v : Nat) (m : List (String × Nat)) :
    lookupCb k (setCb k v m) = some v := by
  induction m with
  | nil => simp [setCb, lookupCb]
  | cons kv rest ih =>
    obtain ⟨k0, w⟩ := kv
    by_cases hk : k0 = k
    · simp [setCb, lookupCb, hk]
    · simp [setCb, lookupCb, hk, ih]

/-- `MoenApi.subscribe_to_channel`: fails when not running, when no socket id
ever arrives, or when the channel auth is empty; otherwise it always sends a
`pusher:subscribe` frame and then installs the callback — there is no check
of `_subscribed_channels`. The bounded socket-id wait is collapsed: in this
sequential model the id is either available or it is not. -/
def subscribe_to_channel (s : PusherClient) (channelId : String) (cb : Nat)
    (authFor : String → String) : PusherClient × Bool :=
  if !s.running then (s, false)
  else
    let channelName := "private-" ++ channelId
    match s.socketId with
    | Option.none => (s, false)
    | some _ =>
      let auth := authFor channelName
      if auth.isEmpty then (s, false)
      else
        ({ s with
            sentFrames := s.sentFrames ++ [PusherFrame.subscribe channelName auth],
            updateCallbacks := setCb channelName cb s.updateCallbacks }, true)

/-- Result of `send_control_event`, distinguishing which precondition failed
(the source logs a distinct error and returns `False` in each case). -/
inductive SendResult where
  | notConnected
  | notSubscribed
  | sent
  deriving DecidableEq

/-- `MoenApi.send_control_event`: refuse when not connected, refuse when the
channel is not in `_subscribed_channels`, otherwise send exactly one
`client-state-desired` frame with the nested control envelope. -/
def send_control_event (s : PusherClient) (channelId action : String)
    (params : PyVal) : PusherClient × SendResult :=
  if !s.running || !s.ws then (s, SendResult.notConnected)
  else
    let channelName := "private-" ++ channelId
    if channelName ∈ s.subscribedChannels then
      ({ s with sentFrames := s.sentFrames ++
          [PusherFrame.clientEvent "client-state-desired" channelName
            (PyVal.dict [("type", PyVal.str "control"),
              ("data", PyVal.dict [("action", PyVal.str action),
                                   ("params", params)])])] }, SendResult.sent)
    else (s, SendResult.notSubscribed)

/-- `MoenApi.disconnect_pusher`: stop running, drop the socket, clear the
socket id and the subscribed set; registered callbacks are retained. -/
def disconnect_pusher (s : PusherClient) : PusherClient :=
  { s with running := false, ws := false, socketId := Option.none,
           subscribedChannels := [] }

/-- Counterexample to claim C3: re-subscribing a channel that is already in
the Subscribed state sends a second `pusher:subscribe` frame over the
connection (the claim says it must not). -/
theorem resubscribe_sends_second_frame :
    let s0 : PusherClient :=
      { running := true, ws := true, socketId := some "sid-1",
        subscribedChannels := ["private-ch1"],
        updateCallbacks := [("private-ch1", 1)],
        sentFrames := [PusherFrame.subscribe "private-ch1" "sig"] }
    subscribe_to_channel s0 "ch1" 2 (fun _ => "sig") =
      ({ running := true, ws := true, socketId := some "sid-1",
         subscribedChannels := ["private-ch1"],
         updateCallbacks := [("private-ch1", 2)],
         sentFrames := [PusherFrame.subscribe "private-ch1" "sig",
                        PusherFrame.subscribe "private-ch1" "sig"] }, true) ∧
    ((subscribe_to_channel s0 "ch1" 2 (fun _ => "sig")).1.sentFrames.countP
      fun f => match f with
        | PusherFrame.subscribe c _ => c = "private-ch1"
        | _ => false) = 2 := by
  exact ⟨rfl, rfl⟩

/-- Claim C3 amended: re-subscribing an already-Subscribed channel replaces
the registered callback but also sends another subscribe frame — the
implementation never consults the subscribed set before sending. -/
theorem resubscribe_replaces_callback_and_resends (s : PusherClient)
    (channelId : String) (cb : Nat) (authFor : String → String)
    (hrun : s.running = true) (hsid : s.socketId.isSome = true)
    (hauth : (authFor ("private-" ++ channelId)).isEmpty = false)
    (hsub : ("private-" ++ channelId) ∈ s.subscribedChannels) :
    subscribe_to_channel s channelId cb authFor =
      ({ s with
          sentFrames := s.sentFrames ++
            [PusherFrame.subscribe ("private-" ++ channelId)
              (authFor ("private-" ++ channelId))],
          updateCallbacks :=
            setCb ("private-" ++ channelId) cb s.updateCallbacks }, true) ∧
    lookupCb ("private-" ++ channelId)
        (setCb ("private-" ++ channelId) cb s.updateCallbacks) = some cb ∧
    (subscribe_to_channel s channelId cb authFor).1.sentFrames.length =
      s.sentFrames.length + 1 := by
  obtain ⟨sid, hs⟩ := Option.isSome_iff_exists.mp hsid
  have heq : subscribe_to_channel s channelId cb authFor =
      ({ s with
          sentFrames := s.sentFrames ++
            [PusherFrame.subscribe ("private-" ++ channelId)
              (authFor ("private-" ++ channelId))],
          updateCallbacks :=
            setCb ("private-" ++ channelId) cb s.updateCallbacks }, true) := by
    unfold subscribe_to_channel
    rw [hrun, hs]
    simp [hauth]
  refine ⟨heq, lookupCb_setCb_self _ _ _, ?_⟩
  rw [heq]
  simp

/-- Closed instance of the amended C3 on a concrete already-subscribed
state. -/
theorem resubscribe_replaces_callback_and_resends_inst :
    let s0 : PusherClient :=
      { running := true, ws := true, socketId := some "sid-1",
        subscribedChannels := ["private-ch1"],
        updateCallbacks := [("private-ch1", 1)],
        sentFrames := [PusherFrame.subscribe "private-ch1" "sig"] }
    lookupCb "private-ch1" (setCb "private-ch1" 2 s0.updateCallbacks) = some 2 ∧
    (subscribe_to_channel s0 "ch1" 2 (fun _ => "sig")).1.sentFrames.length =
      s0.sentFrames.length + 1 := by
  intro s0
  have h := resubscribe_replaces_callback_and_resends s0 "ch1" 2 (fun _ => "sig")
    rfl rfl rfl (by simp [s0])
  exact ⟨h.2.1, h.2.2⟩

/-- Claim C9: `send_control_event` checks its preconditions synchronously —
with the connection up but the channel not subscribed it fails NotSubscribed
and sends nothing; with the connection down (in particular right after
`disconnect_pusher`) it fails NotConnected and sends nothing; with both
preconditions met it sends exactly one outbound frame. -/
theorem send_event_preconditions (s : PusherClient) (channelId action : String)
    (params : PyVal) :
    (s.running = true → s.ws = true →
      ("private-" ++ channelId) ∉ s.subscribedChannels →
      send_control_event s channelId action params =
        (s, SendResult.notSubscribed)) ∧
    (s.running = false ∨ s.ws = false →
      send_control_event s channelId action params =
        (s, SendResult.notConnected)) ∧
    (s.running = true → s.ws = true →
      ("private-" ++ channelId) ∈ s.subscribedChannels →
      (send_control_event s channelId action params).2 = SendResult.sent ∧
      (send_control_event s channelId action params).1.sentFrames.length =
        s.sentFrames.length + 1) ∧
    send_control_event (disconnect_pusher s) channelId action params =
      (disconnect_pusher s, SendResult.notConnected) := by
  refine ⟨?_, ?_, ?_, ?_⟩
  · intro hr hw hns
    unfold send_control_event
    rw [hr, hw]
    simp [hns]
  · intro hdown
    unfold send_control_event
    rcases hdown with h | h <;> simp [h]
  · intro hr hw hsub
    unfold send_control_event
    rw [hr, hw]
    simp [hsub]
  · unfold send_control_event disconnect_pusher
    simp

/-- Closed instance of the write-path preconditions on concrete states. -/
theorem send_event_preconditions_inst :
    let sUp : PusherClient :=
      { running := true, ws := true, socketId := some "sid-1",
        subscribedChannels := ["private-ch1"],
        updateCallbacks := [("private-ch1", 1)], sentFrames := [] }
    (send_control_event sUp "ch2" "shower_off" (PyVal.dict []) =
      (sUp, SendResult.notSubscribed)) ∧
    ((send_control_event sUp "ch1" "shower_off" (PyVal.dict [])).2 =
      SendResult.sent ∧
     (send_control_event sUp "ch1" "shower_off"
       (PyVal.dict [])).1.sentFrames.length = sUp.sentFrames.length + 1) ∧
    (send_control_event (disconnect_pusher sUp) "ch1" "shower_off"
      (PyVal.dict []) = (disconnect_pusher sUp, SendResult.notConnected)) := by
  intro sUp
  refine ⟨?_, ?_, ?_⟩
  · exact (send_event_preconditions sUp "ch2" "shower_off" (PyVal.dict [])).1
      rfl rfl (by simp [sUp])
  · exact (send_event_preconditions sUp "ch1" "shower_off"
      (PyVal.dict [])).2.2.1 rfl rfl (by simp [sUp])
  · exact (send_event_preconditions sUp "ch1" "shower_off"
      (PyVal.dict [])).2.2.2

/-! ## Switch entities: `switch.py` -/

/-- The optimistic overlay of a switch entity: `_optimistic_state`
(`None` means "use coordinator data"). -/
structure SwitchOverlay where
  optimisticState : Option Bool

/-- `MoenShowerSwitch.is_on`: an optimistic override wins; otherwise any
mode other than `"off"` means on. -/
def shower_is_on (e : SwitchOverlay) (deviceData : DeviceRecord) : Bool :=
  match e.optimisticState with
  | some b => b
  | Option.none =>
    !((lookupKey "mode" deviceData).getD (PyVal.str "off")).eqStr "off"

/-- `MoenOutletSwitch._get_outlet_data`: scan the outlets list for the entry
whose position equals this switch's outlet position. -/
def get_outlet_data (outlets : List PyVal) (pos : Int) :
    Option (List (String × PyVal)) :=
  match outlets with
  | [] => Option.none
  | PyVal.dict o :: rest =>
    if ((lookupKey "position" o).getD PyVal.null).eqInt pos then some o
    else get_outlet_data rest pos
  | _ :: rest => get_outlet_data rest pos

/-- `MoenOutletSwitch.is_on`: an optimistic override wins; otherwise the
outlet's `active` value (default `False`), or `False` when the outlet is not
found. -/
def outlet_is_on (e : SwitchOverlay) (deviceData : DeviceRecord) (pos : Int) :
    PyVal :=
  match e.optimisticState with
  | some b => PyVal.bool b
  | Option.none =>
    match (lookupKey "outlets" deviceData).getD (PyVal.list []) with
    | PyVal.list outlets =>
      match get_outlet_data outlets pos with
      | some o => (lookupKey "active" o).getD (PyVal.bool false)
      | Option.none => PyVal.bool false
    | _ => PyVal.bool false

/-- `_handle_coordinator_update` of both switch classes: unconditionally
clear the optimistic state before re-reading coordinator data. -/
def handle_coordinator_update (e : SwitchOverlay) : SwitchOverlay :=
  { optimisticState := Option.none }

/-- Claim C7: while an override `b` is set the reads return `b`; any
coordinator update notification clears the override unconditionally —
whatever `b` was and whatever the registry holds — so the next read is the
registry-derived value. -/
theorem optimistic_cleared_on_update (b : Bool) (e : SwitchOverlay)
    (deviceData : DeviceRecord) (pos : Int) :
    shower_is_on ⟨some b⟩ deviceData = b ∧
    outlet_is_on ⟨some b⟩ deviceData pos = PyVal.bool b ∧
    (handle_coordinator_update e).optimisticState = Option.none ∧
    shower_is_on (handle_coordinator_update ⟨some b⟩) deviceData =
      !((lookupKey "mode" deviceData).getD (PyVal.str "off")).eqStr "off" ∧
    outlet_is_on (handle_coordinator_update ⟨some b⟩) deviceData pos =
      (match (lookupKey "outlets" deviceData).getD (PyVal.list []) with
        | PyVal.list outlets =>
          match get_outlet_data outlets pos with
          | some o => (lookupKey "active" o).getD (PyVal.bool false)
          | Option.none => PyVal.bool false
        | _ => PyVal.bool false) :=
  ⟨rfl, rfl, rfl, rfl, rfl⟩

/-- The `outlet_states` list built by `MoenApi.set_outlet_state` (and, with
`active := False`/`True`, by the loops in `MoenOutletSwitch.async_turn_off`
and `async_turn_on`): replace the targeted position's active value, keep
every other entry's current value. -/
def build_outlet_states (outlets : List DeviceRecord) (outletPosition : Int)
    (active : Bool) : List DeviceRecord :=
  outlets.map fun outlet =>
    let pos := (lookupKey "position" outlet).getD PyVal.null
    let isActive :=
      if pos.eqInt outletPosition then PyVal.bool active
      else (lookupKey "active" outlet).getD (PyVal.bool false)
    [("position", pos), ("active", isActive)]

/-- Claim C8: the composite outlet write preserves siblings — the payload
list is as long as the outlet list; entry `i` keeps outlet `i`'s position;
when outlet `i` is not the target its entry carries its current (pre-write)
active value, and when it is the target its entry carries the new value. -/
theorem outlet_write_preserves_siblings (outlets : List DeviceRecord)
    (target : Int) (active : Bool) :
    (build_outlet_states outlets target active).length = outlets.length ∧
    ∀ (i : Nat) (h : i < outlets.length)
      (h2 : i < (build_outlet_states outlets target active).length),
      lookupKey "position" ((build_outlet_states outlets target active).get ⟨i, h2⟩) =
        some ((lookupKey "position" (outlets.get ⟨i, h⟩)).getD PyVal.null) ∧
      (((lookupKey "position" (outlets.get ⟨i, h⟩)).getD PyVal.null).eqInt target =
          false →
        lookupKey "active" ((build_outlet_states outlets target active).get ⟨i, h2⟩) =
          some ((lookupKey "active" (outlets.get ⟨i, h⟩)).getD (PyVal.bool false))) ∧
      (((lookupKey "position" (outlets.get ⟨i, h⟩)).getD PyVal.null).eqInt target =
          true →
        lookupKey "active" ((build_outlet_states outlets target active).get ⟨i, h2⟩) =
          some (PyVal.bool active)) := by
  refine ⟨by simp [build_outlet_states], ?_⟩
  intro i h h2
  simp only [List.get_eq_getElem]
  by_cases hpos :
      ((lookupKey "position" outlets[i]).getD PyVal.null).eqInt target = true
  · have hget : (build_outlet_states outlets target active)[i] =
        [("position", (lookupKey "position" outlets[i]).getD PyVal.null),
         ("active", PyVal.bool active)] := by
      simp [build_outlet_states, hpos]
    refine ⟨?_, ?_, ?_⟩
    · rw [hget]; simp [lookupKey]
    · intro hfalse; rw [hfalse] at hpos; exact Bool.noConfusion hpos
    · intro _; rw [hget]; simp [lookupKey]
  · have hpos2 :
        ((lookupKey "position" outlets[i]).getD PyVal.null).eqInt target = false := by
      cases hb : ((lookupKey "position" outlets[i]).getD PyVal.null).eqInt target
      · rfl
      · exact absurd hb hpos
    have hget : (build_outlet_states outlets target active)[i] =
        [("position", (lookupKey "position" outlets[i]).getD PyVal.null),
         ("active", (lookupKey "active" outlets[i]).getD (PyVal.bool false))] := by
      simp [build_outlet_states, hpos2]
    refine ⟨?_, ?_, ?_⟩
    · rw [hget]; simp [lookupKey]
    · intro _; rw [hget]; simp [lookupKey]
    · intro htrue; rw [htrue] at hpos2; exact Bool.noConfusion hpos2

/-- Closed instance of sibling preservation: turning outlet 2 on in a
3-outlet device leaves outlets 1 and 3 at their current active values. -/
theorem outlet_write_preserves_siblings_inst :
    let outlets : List DeviceRecord :=
      [[("position", PyVal.int 1), ("active", PyVal.bool true)],
       [("position", PyVal.int 2), ("active", PyVal.bool false)],
       [("position", PyVal.int 3), ("active", PyVal.bool false)]]
    ∀ (h : 0 < outlets.length)
      (h2 : 0 < (build_outlet_states outlets 2 true).length)
      (h3 : 1 < outlets.length)
      (h4 : 1 < (build_outlet_states outlets 2 true).length),
      lookupKey "active" ((build_outlet_states outlets 2 true).get ⟨0, h2⟩) =
        some (PyVal.bool true) ∧
      lookupKey "active" ((build_outlet_states outlets 2 true).get ⟨1, h4⟩) =
        some (PyVal.bool true) := by
  intro outlets h h2 h3 h4
  constructor
  · exact ((outlet_write_preserves_siblings outlets 2 true).2 0 h h2).2.1 rfl
  · exact ((outlet_write_preserves_siblings outlets 2 true).2 1 h3 h4).2.2 rfl

/-- The command `MoenOutletSwitch.async_turn_off` ends up sending. -/
inductive TurnOffAction where
  | showerOff
  | outletsSet (outlets : List DeviceRecord)

/-- The active-outlet list comprehension of `async_turn_off`:
`[o for o in outlets if o.get("active", False)]` (Python truthiness). -/
def activeOutlets (outlets : List DeviceRecord) : List DeviceRecord :=
  outlets.filter fun o => ((lookupKey "active" o).getD (PyVal.bool false)).isTruthy

/-- `MoenOutletSwitch.async_turn_off`: when exactly one outlet is active and
its position equals this switch's position, send `shower_off`; in every other
case build the composite `outlets_set` payload with this outlet off and the
rest at their current values. -/
def outlet_turn_off (outlets : List DeviceRecord) (outletPosition : Int) :
    TurnOffAction :=
  match activeOutlets outlets with
  | [a] =>
    if ((lookupKey "position" a).getD PyVal.null).eqInt outletPosition
    then TurnOffAction.showerOff
    else TurnOffAction.outletsSet (build_outlet_states outlets outletPosition false)
  | _ => TurnOffAction.outletsSet (build_outlet_states outlets outletPosition false)

/-- Counterexample to claim C10: with every outlet of the device inactive
(so no *other* outlet is active), turning outlet 1 off still sends an
`outlets_set` payload — `shower_off` is reserved for the case where the
target is the single active outlet, and the claim's "only when at least one
other outlet is active" does not hold. -/
theorem turn_off_all_inactive_sends_outlets_set :
    let outlets : List DeviceRecord :=
      [[("position", PyVal.int 1), ("active", PyVal.bool false)],
       [("position", PyVal.int 2), ("active", PyVal.bool false)]]
    outlet_turn_off outlets 1 =
      TurnOffAction.outletsSet
        [[("position", PyVal.int 1), ("active", PyVal.bool false)],
         [("position", PyVal.int 2), ("active", PyVal.bool false)]] ∧
    activeOutlets outlets = [] ∧
    (∀ l, TurnOffAction.outletsSet l ≠ TurnOffAction.showerOff) :=
  ⟨rfl, rfl, fun l h => TurnOffAction.noConfusion h⟩

/-- Claim C10 amended: `shower_off` is sent exactly when the filtered
active-outlet list is a single entry whose position equals the target; in
every other case — including when no outlet at all is active — an
`outlets_set` payload is sent with the target off and every sibling at its
current value. -/
theorem turn_off_action_selection (outlets : List DeviceRecord) (pos : Int) :
    (∀ a, activeOutlets outlets = [a] →
      ((lookupKey "position" a).getD PyVal.null).eqInt pos = true →
      outlet_turn_off outlets pos = TurnOffAction.showerOff) ∧
    (∀ a, activeOutlets outlets = [a] →
      ((lookupKey "position" a).getD PyVal.null).eqInt pos = false →
      outlet_turn_off outlets pos =
        TurnOffAction.outletsSet (build_outlet_states outlets pos false)) ∧
    ((activeOutlets outlets).length ≠ 1 →
      outlet_turn_off outlets pos =
        TurnOffAction.outletsSet (build_outlet_states outlets pos false)) := by
  refine ⟨?_, ?_, ?_⟩
  · intro a ha hpos
    unfold outlet_turn_off
    rw [ha]
    simp [hpos]
  · intro a ha hpos
    unfold outlet_turn_off
    rw [ha]
    simp [hpos]
  · intro hlen
    unfold outlet_turn_off
    match hact : activeOutlets outlets with
    | [] => rfl
    | [a] => rw [hact] at hlen; exact absurd rfl hlen
    | a :: b :: rest => rfl

/-- Closed instance of the turn-off selection: the single-active-target case
sends `shower_off`, the all-inactive case sends `outlets_set`. -/
theorem turn_off_action_selection_inst :
    let oneActive : List DeviceRecord :=
      [[("position", PyVal.int 1), ("active", PyVal.bool true)],
       [("position", PyVal.int 2), ("active", PyVal.bool false)]]
    let noneActive : List DeviceRecord :=
      [[("position", PyVal.int 1), ("active", PyVal.bool false)]]
    outlet_turn_off oneActive 1 = TurnOffAction.showerOff ∧
    outlet_turn_off noneActive 1 =
      TurnOffAction.outletsSet (build_outlet_states noneActive 1 false) := by
  intro oneActive noneActive
  constructor
  · exact (turn_off_action_selection oneActive 1).1
      [("position", PyVal.int 1), ("active", PyVal.bool true)] rfl rfl
  · exact (turn_off_action_selection noneActive 1).2.2 (by decide)
